import Mathlib

/-!
Shallow embedding of `gntools/definitions.py` (GEONIS name-resolution layer).

The module wraps two kinds of lookup tables read from a geodatabase:

* `DefinitionTable` — a key→value override table per "solution"; name facades
  (`_EleTableNames`, `_EleFieldNames`) resolve semantic names through
  `DefinitionTable.get(key, default)`.
* `RelationTable` — a table of inter-table relationships, loaded row by row
  through `_process_row` into `Relation` records.

The underlying table I/O lives in the external `gpf` package; here the loaded
mapping (respectively the list of raw rows) is passed in explicitly, and the
logic of `definitions.py` is embedded over it.  Python strings are `String`,
nullable values are `Option String`; Python truthiness of an optional string
(`None` and `''` are falsy) is made explicit.
-/

namespace Gntools

/-- Python truthiness of an optional string: `None` and `''` are falsy. -/
def optTruthy : Option String → Bool
  | none => false
  | some s => !s.isEmpty

/-- Python `str.upper()` (over the character list, so the kernel can
evaluate it on literals). -/
def pyUpper (s : String) : String := ⟨s.data.map Char.toUpper⟩

/-- Python `str.lower()`. -/
def pyLower (s : String) : String := ⟨s.data.map Char.toLower⟩

/-- Python `str.strip()`: drop leading and trailing whitespace. -/
def pyStrip (s : String) : String :=
  ⟨((s.data.dropWhile Char.isWhitespace).reverse.dropWhile
      Char.isWhitespace).reverse⟩

/--
Embeds `DefinitionTable` (a `gpf.lookups.ValueLookup`, i.e. a dict built from
the rows of the `GN<SOLUTION>_DEFINITION` table).  The loaded key→value
mapping is the field `defs`; `solution` stores the lowercased solution code.
-/
structure DefinitionTable where
  defs : List (String × String)
  solution : String
  deriving Repr, DecidableEq

/-- `DefinitionTable.get(key, default)`: dict lookup with a default
(inherited from the Python `dict.get`). -/
def DefinitionTable.get (t : DefinitionTable) (key default : String) : String :=
  (t.defs.lookup key).getD default

/-- Validation-error message of `DefinitionTable.__init__` for an empty table. -/
def emptyDefsMsg (solution : String) : String :=
  "There are no definitions for the " ++ pyUpper solution ++ " solution"

/--
Embeds `DefinitionTable.__init__` from the point where the underlying
`ValueLookup` has produced the mapping `mapping`: if the mapping is empty a
`ValueError` naming the solution is raised, otherwise the instance stores the
mapping and the lowercased solution code.
-/
def DefinitionTable.make (mapping : List (String × String)) (solution : String) :
    Except String DefinitionTable :=
  if mapping.isEmpty then
    .error (emptyDefsMsg solution)
  else
    .ok { defs := mapping, solution := pyLower solution }

/-- Embeds `_EleTableNames`: a facade holding a `DefinitionTable` reference. -/
structure EleTableNames where
  defTable : DefinitionTable
  deriving Repr, DecidableEq

/-- `_EleTableNames.cable` property. -/
def EleTableNames.cable (f : EleTableNames) : String :=
  f.defTable.get "tablename_cable" "ele_kabel"

/-- `_EleTableNames.clamp` property. -/
def EleTableNames.clamp (f : EleTableNames) : String :=
  f.defTable.get "tablename_clamp" "ele_ds_klemme"

/-- `_EleTableNames.sec_cable_voltage` property. -/
def EleTableNames.sec_cable_voltage (f : EleTableNames) : String :=
  f.defTable.get "tablename_sec_cable_dense" "eles_spannung"

/-- Embeds `_EleFieldNames`: a facade holding a `DefinitionTable` reference. -/
structure EleFieldNames where
  defTable : DefinitionTable
  deriving Repr, DecidableEq

/-- `_EleFieldNames.name_number` property: its value is conditional on the
resolved `_EleTableNames.sec_cable_voltage` name. -/
def EleFieldNames.name_number (f : EleFieldNames) : String :=
  if (EleTableNames.mk f.defTable).sec_cable_voltage = "eles_spannung" then
    "name_nummer"
  else
    "name_number"

/-- Validation-error message of `_Definition.__init__` for a wrong argument. -/
def defArgErrMsg : String :=
  "'definitions' argument must be a DefinitionTable instance"

/-- A Python value passed to a facade constructor: either a `DefinitionTable`
instance or some other object (described by a string). -/
inductive PyObj where
  | defTable (t : DefinitionTable)
  | other (descr : String)
  deriving Repr, DecidableEq

/-- Embeds `_Definition.__init__`: `pass_if(isinstance(definitions,
DefinitionTable), ValueError, ...)`, then stores the reference. -/
def validateDefArg : PyObj → Except String DefinitionTable
  | .defTable t => .ok t
  | .other _ => .error defArgErrMsg

/-- Constructing the tables facade (`_EleTableNames(definitions)`). -/
def mkEleTableNames (v : PyObj) : Except String EleTableNames :=
  (validateDefArg v).map EleTableNames.mk

/-- Constructing the fields facade (`_EleFieldNames(definitions)`). -/
def mkEleFieldNames (v : PyObj) : Except String EleFieldNames :=
  (validateDefArg v).map EleFieldNames.mk

/--
Embeds the `Relation` tuple: 7 optional string fields, in tuple order
`(target_table, relate_table, source_field, target_field, relate_source,
relate_target, relate_type)`, each defaulting to `None`.
-/
structure Relation where
  target_table : Option String := none
  relate_table : Option String := none
  source_field : Option String := none
  target_field : Option String := none
  relate_source : Option String := none
  relate_target : Option String := none
  relate_type : Option String := none
  deriving Repr, DecidableEq

/-- `Relation.__nonzero__`: Python `any(self)` over the 7 tuple slots, i.e.
true iff some slot holds a truthy value. -/
def Relation.nonzero (r : Relation) : Bool :=
  optTruthy r.target_table || optTruthy r.relate_table ||
    optTruthy r.source_field || optTruthy r.target_field ||
    optTruthy r.relate_source || optTruthy r.relate_target ||
    optTruthy r.relate_type

/-- `Relation(*args)` from a positional list (`_fix_args` pads missing
positions with `None`). -/
def Relation.ofList (l : List (Option String)) : Relation :=
  ⟨l.getD 0 none, l.getD 1 none, l.getD 2 none, l.getD 3 none,
    l.getD 4 none, l.getD 5 none, l.getD 6 none⟩

/-- Per-value normalization in `RelationTable._process_row`:
`v.upper().strip()` for strings, `None` passed through. -/
def formatVal : Option String → Option String
  | none => none
  | some s => some (pyStrip (pyUpper s))

/-- Python `'{}'.format(v)` on an optional string (used in the duplicate-key
warning message). -/
def optFormat : Option String → String
  | none => "None"
  | some s => s

/-- The `RelationWarning` message emitted for a duplicate key. -/
def relWarnMsg (key : String) (relType : Option String) : String :=
  "Source table " ++ pyUpper key ++ " participates in multiple " ++
    optFormat relType ++ " relationships"

/-- The state built up by `RelationTable` row processing: the lookup mapping
(`self[key] = values` inserts) and the emitted `RelationWarning` messages. -/
structure RelState where
  entries : List (String × Relation)
  warnings : List String
  deriving Repr, DecidableEq

/--
Embeds `RelationTable._process_row`: normalize every value, take the first
column as key and the remaining seven as a `Relation`; skip falsy keys;
on a duplicate key warn and keep the existing record; otherwise insert.
-/
def processRow (s : RelState) (row : List (Option String)) : RelState :=
  let formatted := row.map formatVal
  let values := Relation.ofList formatted.tail
  match formatted.getD 0 none with
  | none => s
  | some k =>
    if k.isEmpty then s
    else if (s.entries.lookup k).isSome then
      { s with warnings := s.warnings ++ [relWarnMsg k values.relate_type] }
    else
      { s with entries := s.entries ++ [(k, values)] }

/-- A raw row of the `GNREL_DEFINITION` table, by database column. -/
structure RelRow where
  srcTable : Option String
  dstTable : Option String
  relTable : Option String
  srcKeyField : Option String
  dstKeyField : Option String
  relSrcField : Option String
  relDstField : Option String
  relType : Option String
  deriving Repr, DecidableEq

/--
The column selection of `RelationTable.__init__`: the key column followed by
`fields`.  With `reverse=False` the key is the source-table column and the
source/destination columns are read in order; with `reverse=True` every
source/destination pair is swapped (tables, key fields, relate fields).
The relation-table and type columns are the same either way.
-/
def selectColumns (reverse : Bool) (r : RelRow) : List (Option String) :=
  if reverse then
    [r.dstTable, r.srcTable, r.relTable, r.dstKeyField, r.srcKeyField,
      r.relDstField, r.relSrcField, r.relType]
  else
    [r.srcTable, r.dstTable, r.relTable, r.srcKeyField, r.dstKeyField,
      r.relSrcField, r.relDstField, r.relType]

/-- The bulk load performed by the `Lookup` superclass: fold `_process_row`
over the selected columns of every row. -/
def loadRows (reverse : Bool) (rows : List RelRow) : RelState :=
  rows.foldl (fun s r => processRow s (selectColumns reverse r)) ⟨[], []⟩

/-- Modelled from the spec: the 8 relation-type codes (constants
`GNRELTYPE_*` of the missing module `gntools.common.const`), per the spec the
fixed enumeration aggregate, composite, datalink, entity, label, plan,
relate, shapegroup. -/
def relTypeCodes : List String :=
  ["aggregate", "composite", "datalink", "entity", "label", "plan",
    "relate", "shapegroup"]

/-- The `ValueError` message for an invalid `relation_type`. -/
def relTypeErrMsg : String :=
  "relation_type must be one of the GNRELTYPE codes"

/-- The observable I/O steps of `RelationTable.__init__` after validation:
building the table path and reading the table. -/
inductive RelEvent where
  | buildPath
  | readTable
  deriving Repr, DecidableEq

/--
Embeds `RelationTable.__init__` together with its I/O trace: `relation_type`
is validated against the 8 codes first; only on success is the table path
built and the table read (the rows matching the `relation_type` filter of
the where-clause), feeding every row through `_process_row`.
-/
def RelationTable.make (relationType : String) (reverse : Bool)
    (rows : List RelRow) : Except String RelState × List RelEvent :=
  if relationType ∈ relTypeCodes then
    (.ok (loadRows reverse
        (rows.filter (fun r => r.relType == some relationType))),
      [.buildPath, .readTable])
  else
    (.error relTypeErrMsg, [])

/-- Modelled from the spec: the language code for a custom language
(`_i18n.GN_LANG_CUSTOM`, from the missing module `gntools.common.i18n`). -/
def GN_LANG_CUSTOM : String := "custom"

/-- Modelled from the spec: the German language code (`_i18n.GN_LANG_DE`). -/
def GN_LANG_DE : String := "de"

/-- Modelled from the spec: the English language code (`_i18n.GN_LANG_EN`). -/
def GN_LANG_EN : String := "en"

/-- Modelled from the spec: the French language code (`_i18n.GN_LANG_FR`). -/
def GN_LANG_FR : String := "fr"

/-- Modelled from the spec: the Italian language code (`_i18n.GN_LANG_IT`). -/
def GN_LANG_IT : String := "it"

/-- Modelled from the spec: the custom description-field name
(`_const.GNFIELD_DESC_CUSTOM`, from the missing `gntools.common.const`). -/
def GNFIELD_DESC_CUSTOM : String := "desc_custom"

/-- Modelled from the spec: the German description-field name
(`_const.GNFIELD_DESC_DE`). -/
def GNFIELD_DESC_DE : String := "desc_de"

/-- Modelled from the spec: the English description-field name
(`_const.GNFIELD_DESC_EN`). -/
def GNFIELD_DESC_EN : String := "desc_en"

/-- Modelled from the spec: the French description-field name
(`_const.GNFIELD_DESC_FR`). -/
def GNFIELD_DESC_FR : String := "desc_fr"

/-- Modelled from the spec: the Italian description-field name
(`_const.GNFIELD_DESC_IT`). -/
def GNFIELD_DESC_IT : String := "desc_it"

/-- The fixed language→description-field dictionary of
`_EleFieldNames.description`, with `dict.get`'s default `GNFIELD_DESC_DE`. -/
def descriptionOf (lang : String) : String :=
  if lang = GN_LANG_CUSTOM then GNFIELD_DESC_CUSTOM
  else if lang = GN_LANG_DE then GNFIELD_DESC_DE
  else if lang = GN_LANG_EN then GNFIELD_DESC_EN
  else if lang = GN_LANG_FR then GNFIELD_DESC_FR
  else if lang = GN_LANG_IT then GNFIELD_DESC_IT
  else GNFIELD_DESC_DE

/--
Embeds one access to the `_EleFieldNames.description` property as a state
transformer over the module global `_gn_lang`:
`_gn_lang = _gn_lang or _i18n.get_language()` (Python `or`: the provider is
consulted only when the cached value is falsy), then the dictionary lookup.
`answer` is what `_i18n.get_language()` would return on this access
(modelled from the spec: a language code).  Returns the resolved
description-field name and the new value of `_gn_lang`.
-/
def descriptionCall (gnLang : Option String) (answer : String) :
    String × Option String :=
  let l := match gnLang with
    | none => answer
    | some s => if s.isEmpty then answer else s
  (descriptionOf l, some l)

/-- Whether an access with this `_gn_lang` value consults the language
provider (`_gn_lang or _i18n.get_language()` evaluates its right operand
exactly when `_gn_lang` is falsy). -/
def consultsProvider (gnLang : Option String) : Bool :=
  !optTruthy gnLang

/-- A string's `isEmpty` is `false` exactly when it differs from `""`. -/
theorem isEmpty_eq_false_iff (s : String) : s.isEmpty = false ↔ s ≠ "" := by
  rw [Bool.eq_false_iff, Ne, Ne]
  exact not_congr (String.isEmpty_iff s)

/-- An optional string is truthy exactly when it holds a non-empty string. -/
theorem optTruthy_eq_true_iff (o : Option String) :
    optTruthy o = true ↔ ∃ s, o = some s ∧ s ≠ "" := by
  cases o <;> simp [optTruthy, isEmpty_eq_false_iff]

end Gntools

namespace Gntools

/-- C1: `DefinitionTable.get` returns the stored override when the key is in the
loaded mapping and the default exactly otherwise; concretely, over the table
`[("tablename_cable", "custom_kabel")]` the tables facade resolves `cable` to
`"custom_kabel"` and `clamp` to its hard-coded default `"ele_ds_klemme"`. -/
theorem definitionTable_get_spec (t : DefinitionTable) (hne : t.defs ≠ [])
    (k d : String) :
    (∀ v, t.defs.lookup k = some v → t.get k d = v) ∧
    (t.defs.lookup k = none → t.get k d = d) ∧
    (EleTableNames.mk ⟨[("tablename_cable", "custom_kabel")], "ele"⟩).cable
      = "custom_kabel" ∧
    (EleTableNames.mk ⟨[("tablename_cable", "custom_kabel")], "ele"⟩).clamp
      = "ele_ds_klemme" := by
  refine ⟨?_, ?_, by decide, by decide⟩
  · intro v hv
    simp [DefinitionTable.get, hv]
  · intro hnone
    simp [DefinitionTable.get, hnone]

/-- Witness for C1 at a concrete non-empty table, present key and absent key. -/
theorem definitionTable_get_spec_witness :
    (DefinitionTable.mk [("a", "b")] "ele").get "a" "d" = "b" ∧
    (DefinitionTable.mk [("a", "b")] "ele").get "x" "d" = "d" := by
  have h := definitionTable_get_spec (DefinitionTable.mk [("a", "b")] "ele")
    (by decide) "a" "d"
  have h' := definitionTable_get_spec (DefinitionTable.mk [("a", "b")] "ele")
    (by decide) "x" "d"
  exact ⟨h.1 "b" (by decide), h'.2.1 (by decide)⟩

/-- C5: `_EleFieldNames.name_number` returns `"name_nummer"` exactly when the
resolved voltage-table name (`_EleTableNames.sec_cable_voltage`, override key
`tablename_sec_cable_dense`) equals the sentinel default `"eles_spannung"`,
and `"name_number"` for every other resolved value, for every definition
table. -/
theorem name_number_conditional (t : DefinitionTable) :
    ((EleTableNames.mk t).sec_cable_voltage = "eles_spannung" →
      (EleFieldNames.mk t).name_number = "name_nummer") ∧
    ((EleTableNames.mk t).sec_cable_voltage ≠ "eles_spannung" →
      (EleFieldNames.mk t).name_number = "name_number") := by
  constructor
  · intro h
    simp [EleFieldNames.name_number, EleTableNames.sec_cable_voltage] at h ⊢
    simp [h]
  · intro h
    simp [EleFieldNames.name_number, EleTableNames.sec_cable_voltage] at h ⊢
    simp [h]

/-- Witness for C5: both branches at concrete definition tables. -/
theorem name_number_conditional_witness :
    (EleFieldNames.mk ⟨[("x", "y")], "ele"⟩).name_number = "name_nummer" ∧
    (EleFieldNames.mk
      ⟨[("tablename_sec_cable_dense", "custom_voltage")], "ele"⟩).name_number
      = "name_number" := by
  constructor
  · exact (name_number_conditional ⟨[("x", "y")], "ele"⟩).1 (by decide)
  · exact (name_number_conditional
      ⟨[("tablename_sec_cable_dense", "custom_voltage")], "ele"⟩).2 (by decide)

/-- C6: constructing a `DefinitionTable` over an empty mapping always raises a
`ValueError` naming the solution and never yields an instance; every
successfully constructed table has a non-empty mapping. -/
theorem definitionTable_empty_fails (mapping : List (String × String))
    (solution : String) :
    (mapping = [] →
      DefinitionTable.make mapping solution = .error (emptyDefsMsg solution)) ∧
    (∀ t, DefinitionTable.make mapping solution = .ok t →
      t.defs ≠ [] ∧ t.defs = mapping ∧ t.solution = pyLower solution) := by
  constructor
  · intro h
    simp [DefinitionTable.make, h]
  · intro t ht
    by_cases hm : mapping.isEmpty
    · simp [DefinitionTable.make, hm] at ht
    · simp [DefinitionTable.make, hm] at ht
      refine ⟨?_, ht.symm ▸ rfl, ht.symm ▸ rfl⟩
      subst ht
      simpa [List.isEmpty_iff] using hm

/-- Witness for C6: the empty table errors; a one-row table constructs and is
non-empty. -/
theorem definitionTable_empty_fails_witness :
    DefinitionTable.make [] "ele" = .error (emptyDefsMsg "ele") ∧
    (DefinitionTable.mk [("a", "b")] "ele").defs ≠ [] := by
  constructor
  · exact (definitionTable_empty_fails [] "ele").1 rfl
  · exact ((definitionTable_empty_fails [("a", "b")] "ele").2
      (DefinitionTable.mk [("a", "b")] "ele") (by rfl)).1

/-- C10: constructing either name facade with a non-`DefinitionTable` argument
raises the `ValueError` of `_Definition.__init__`; with a `DefinitionTable`
instance construction succeeds and the facade holds exactly that table as its
only state. -/
theorem facade_ctor_validates (v : PyObj) :
    (∀ s, v = .other s →
      mkEleTableNames v = .error defArgErrMsg ∧
      mkEleFieldNames v = .error defArgErrMsg) ∧
    (∀ t, v = .defTable t →
      mkEleTableNames v = .ok (EleTableNames.mk t) ∧
      mkEleFieldNames v = .ok (EleFieldNames.mk t)) := by
  constructor
  · intro s hs
    subst hs
    exact ⟨rfl, rfl⟩
  · intro t ht
    subst ht
    exact ⟨rfl, rfl⟩

/-- Witness for C10 at a concrete non-table object and a concrete table. -/
theorem facade_ctor_validates_witness :
    mkEleTableNames (.other "a string") = .error defArgErrMsg ∧
    mkEleFieldNames (.defTable ⟨[("a", "b")], "ele"⟩)
      = .ok (EleFieldNames.mk ⟨[("a", "b")], "ele"⟩) := by
  constructor
  · exact ((facade_ctor_validates (.other "a string")).1 "a string" rfl).1
  · exact ((facade_ctor_validates
      (.defTable ⟨[("a", "b")], "ele"⟩)).2 ⟨[("a", "b")], "ele"⟩ rfl).2

/-- C2: for a relationship row (src=A, dst=B, srcKey=X, dstKey=Y, relSrc=P,
relDst=Q, relation table R, type T), loading with `reverse=False` yields key A
mapped to a `Relation` with target_table=B, source_field=X, target_field=Y,
relate_source=P, relate_target=Q, while `reverse=True` yields key B mapped to
target_table=A, source_field=Y, target_field=X, relate_source=Q,
relate_target=P; `relate_table` and `relate_type` are R and T in both
directions. -/
theorem relationTable_reverse_swaps
    (A B R X Y P Q T : String)
    (hA : pyStrip (pyUpper A) = A) (hB : pyStrip (pyUpper B) = B)
    (hR : pyStrip (pyUpper R) = R) (hX : pyStrip (pyUpper X) = X)
    (hY : pyStrip (pyUpper Y) = Y) (hP : pyStrip (pyUpper P) = P)
    (hQ : pyStrip (pyUpper Q) = Q) (hT : pyStrip (pyUpper T) = T)
    (hAne : A ≠ "") (hBne : B ≠ "") :
    (loadRows false [⟨some A, some B, some R, some X, some Y, some P, some Q,
        some T⟩]).entries
      = [(A, ⟨some B, some R, some X, some Y, some P, some Q, some T⟩)] ∧
    (loadRows true [⟨some A, some B, some R, some X, some Y, some P, some Q,
        some T⟩]).entries
      = [(B, ⟨some A, some R, some Y, some X, some Q, some P, some T⟩)] := by
  constructor
  · simp [loadRows, selectColumns, processRow, formatVal, Relation.ofList,
      hA, hB, hR, hX, hY, hP, hQ, hT, String.isEmpty_iff, hAne]
  · simp [loadRows, selectColumns, processRow, formatVal, Relation.ofList,
      hA, hB, hR, hX, hY, hP, hQ, hT, String.isEmpty_iff, hBne]

/-- Witness for C2 at a concrete (already normalized) row. -/
theorem relationTable_reverse_swaps_witness :
    (loadRows false [⟨some "A", some "B", some "R", some "X", some "Y",
        some "P", some "Q", some "ENTITY"⟩]).entries
      = [("A", ⟨some "B", some "R", some "X", some "Y", some "P", some "Q",
          some "ENTITY"⟩)] ∧
    (loadRows true [⟨some "A", some "B", some "R", some "X", some "Y",
        some "P", some "Q", some "ENTITY"⟩]).entries
      = [("B", ⟨some "A", some "R", some "Y", some "X", some "Q", some "P",
          some "ENTITY"⟩)] :=
  relationTable_reverse_swaps "A" "B" "R" "X" "Y" "P" "Q" "ENTITY"
    (by decide) (by decide) (by decide) (by decide) (by decide) (by decide)
    (by decide) (by decide) (by decide) (by decide)

/-- C3: when a processed row normalizes to a non-empty key that is already in
the mapping, `_process_row` keeps the mapping unchanged (first occurrence
wins) and only appends the duplicate-relationship warning; being a total
step of the fold, it neither raises nor stops the remaining rows from being
processed. -/
theorem relationTable_duplicate_key (s : RelState) (row : List (Option String))
    (k : String) (hk : (row.map formatVal).getD 0 none = some k)
    (hne : k.isEmpty = false) (hdup : (s.entries.lookup k).isSome = true) :
    (processRow s row).entries = s.entries ∧
    (processRow s row).warnings = s.warnings ++
      [relWarnMsg k (Relation.ofList (row.map formatVal).tail).relate_type] := by
  have hk' : (Option.map formatVal row[0]?).getD none = some k := by
    simpa using hk
  constructor <;> simp [processRow, hk', hne, hdup]

/-- Witness for C3: a duplicate key at a concrete state and row. -/
theorem relationTable_duplicate_key_witness :
    (processRow ⟨[("A", ⟨some "B", none, none, none, none, none, none⟩)], []⟩
        [some "a ", some "C", none, none, none, none, none,
          some "ENTITY"]).entries
      = [("A", ⟨some "B", none, none, none, none, none, none⟩)] ∧
    (processRow ⟨[("A", ⟨some "B", none, none, none, none, none, none⟩)], []⟩
        [some "a ", some "C", none, none, none, none, none,
          some "ENTITY"]).warnings
      = [relWarnMsg "A" (some "ENTITY")] := by
  have h := relationTable_duplicate_key
    ⟨[("A", ⟨some "B", none, none, none, none, none, none⟩)], []⟩
    [some "a ", some "C", none, none, none, none, none, some "ENTITY"]
    "A" (by decide) (by decide) (by decide)
  exact ⟨h.1, by rw [h.2]; decide⟩

/-- C7: for every `relation_type` outside the 8-code enumeration,
`RelationTable` construction fails with the validation error and performs no
I/O: the event trace is empty, so the table path is never built and the
table is never read. -/
theorem relationTable_bad_type_no_io (relationType : String) (reverse : Bool)
    (rows : List RelRow) (h : relationType ∉ relTypeCodes) :
    RelationTable.make relationType reverse rows
      = (.error relTypeErrMsg, ([] : List RelEvent)) := by
  simp [RelationTable.make, h]

/-- Witness for C7 at a concrete invalid relation type. -/
theorem relationTable_bad_type_no_io_witness :
    RelationTable.make "bogus" false
        [⟨some "A", some "B", none, none, none, none, none, some "entity"⟩]
      = (.error relTypeErrMsg, ([] : List RelEvent)) :=
  relationTable_bad_type_no_io "bogus" false
    [⟨some "A", some "B", none, none, none, none, none, some "entity"⟩]
    (by decide)

/-- C8: a row whose key column is null, or whose key normalizes (uppercase
then trim) to the empty string, leaves the state untouched: no entry is
added and no warning is emitted. -/
theorem relationTable_empty_key_skipped (s : RelState)
    (row : List (Option String))
    (h : (row.map formatVal).getD 0 none = none ∨
      (row.map formatVal).getD 0 none = some "") :
    processRow s row = s := by
  rcases h with h | h <;>
  · have h' := (by simpa using h :
      (Option.map formatVal row[0]?).getD none = _)
    simp [processRow, h']
    try (intro hc; exact absurd hc (by decide))

/-- Witness for C8: a null key and a whitespace-only key at concrete rows. -/
theorem relationTable_empty_key_skipped_witness :
    processRow ⟨[], []⟩
        [none, some "B", none, none, none, none, none, some "ENTITY"] = ⟨[], []⟩ ∧
    processRow ⟨[], []⟩
        [some "  ", some "B", none, none, none, none, none, some "ENTITY"]
      = ⟨[], []⟩ := by
  constructor
  · exact relationTable_empty_key_skipped ⟨[], []⟩
      [none, some "B", none, none, none, none, none, some "ENTITY"]
      (Or.inl (by decide))
  · exact relationTable_empty_key_skipped ⟨[], []⟩
      [some "  ", some "B", none, none, none, none, none, some "ENTITY"]
      (Or.inr (by decide))

/-- C4: every access to the description property yields one of the 5 fixed
description-field names; an unrecognized language code resolves to the German
name; and once a first access has consulted the provider (with a language
code, a non-empty string), every later access reproduces the same result and
cache without consulting the provider again, whatever the provider would now
answer. -/
theorem description_memoized (a1 a2 : String) (h1 : a1 ≠ "") :
    (descriptionCall none a1).1 ∈
      [GNFIELD_DESC_CUSTOM, GNFIELD_DESC_DE, GNFIELD_DESC_EN,
        GNFIELD_DESC_FR, GNFIELD_DESC_IT] ∧
    (a1 ∉ [GN_LANG_CUSTOM, GN_LANG_DE, GN_LANG_EN, GN_LANG_FR, GN_LANG_IT] →
      (descriptionCall none a1).1 = GNFIELD_DESC_DE) ∧
    descriptionCall (descriptionCall none a1).2 a2
      = ((descriptionCall none a1).1, (descriptionCall none a1).2) ∧
    consultsProvider none = true ∧
    consultsProvider (descriptionCall none a1).2 = false := by
  refine ⟨?_, ?_, ?_, rfl, ?_⟩
  · simp only [descriptionCall, descriptionOf, List.mem_cons]
    split_ifs <;> simp
  · intro h
    simp only [List.mem_cons, not_or] at h
    obtain ⟨hc, hd, he, hf, hi, -⟩ := h
    simp [descriptionCall, descriptionOf, hc, hd, he, hf, hi]
  · simp [descriptionCall, String.isEmpty_iff, h1]
  · simp [consultsProvider, optTruthy, descriptionCall,
      String.isEmpty_iff, isEmpty_eq_false_iff, h1]

/-- Witness for C4: a first access with an unrecognized language code
resolves to the German field name, and a second access with a different
provider answer returns the cached result. -/
theorem description_memoized_witness :
    (descriptionCall none "xx").1 = GNFIELD_DESC_DE ∧
    descriptionCall (descriptionCall none "xx").2 "fr"
      = ((descriptionCall none "xx").1, (descriptionCall none "xx").2) ∧
    consultsProvider (descriptionCall none "xx").2 = false := by
  have h := description_memoized "xx" "fr" (by decide)
  exact ⟨h.2.1 (by decide), h.2.2.1, h.2.2.2.2⟩

/-- C9 counterexample: a `Relation` whose only non-null field is the empty
string has a non-null field, yet its boolean conversion (`any(self)`) is
false — Python truthiness also discounts empty strings, not only `None`. -/
theorem relation_nonzero_counterexample :
    (Relation.mk (some "") none none none none none none).target_table ≠ none ∧
    (Relation.mk (some "") none none none none none none).nonzero = false := by
  decide

/-- C9 (amended): a `Relation` is truthy iff at least one of its 7 fields
holds a truthy value, i.e. a non-null, non-empty string; in particular it is
falsy when all 7 fields are null. -/
theorem relation_nonzero_amended (r : Relation) :
    (r.nonzero = true ↔ ∃ s : String, s ≠ "" ∧
      (r.target_table = some s ∨ r.relate_table = some s ∨
        r.source_field = some s ∨ r.target_field = some s ∨
        r.relate_source = some s ∨ r.relate_target = some s ∨
        r.relate_type = some s)) ∧
    ((Relation.mk none none none none none none none).nonzero = false) := by
  refine ⟨?_, by decide⟩
  obtain ⟨f1, f2, f3, f4, f5, f6, f7⟩ := r
  simp only [Relation.nonzero, Bool.or_eq_true, optTruthy_eq_true_iff]
  constructor
  · rintro ((((((⟨s, hs, hne⟩ | ⟨s, hs, hne⟩) | ⟨s, hs, hne⟩) | ⟨s, hs, hne⟩) |
        ⟨s, hs, hne⟩) | ⟨s, hs, hne⟩) | ⟨s, hs, hne⟩) <;>
      exact ⟨s, hne, by tauto⟩
  · rintro ⟨s, hne, hs | hs | hs | hs | hs | hs | hs⟩
    · exact Or.inl (Or.inl (Or.inl (Or.inl (Or.inl (Or.inl ⟨s, hs, hne⟩)))))
    · exact Or.inl (Or.inl (Or.inl (Or.inl (Or.inl (Or.inr ⟨s, hs, hne⟩)))))
    · exact Or.inl (Or.inl (Or.inl (Or.inl (Or.inr ⟨s, hs, hne⟩))))
    · exact Or.inl (Or.inl (Or.inl (Or.inr ⟨s, hs, hne⟩)))
    · exact Or.inl (Or.inl (Or.inr ⟨s, hs, hne⟩))
    · exact Or.inl (Or.inr ⟨s, hs, hne⟩)
    · exact Or.inr ⟨s, hs, hne⟩

end Gntools
